import Mathlib

/-!
Verification of the edge authentication gateway and reverse proxy
(workers-openclaw-vpc): a shallow embedding of the Hono worker in
src/index.ts and of the dual-mode Cloudflare Access middleware in
src/middleware/auth.ts, together with theorems settling the spec claims
about credential verification, routing, error handling, and the
WebSocket bridge.

External collaborators (the jose JWT verification, the VPC_SERVICE fetch
binding) are modelled as oracle inputs: a boolean for whether jwtVerify
succeeds, and an Except value for each outbound fetch, carrying either
the backend Response or the thrown error rendered as a string.
-/

namespace Vpc

/-- JavaScript string truthiness over an optional header or environment
variable: undefined and the empty string are falsy. -/
def truthy : Option String → Bool
  | some s => !s.isEmpty
  | none => false

/-- Identifier of a concrete WebSocket handle: the two halves of the
WebSocketPair created by the root handler, and the backend socket
attached to the upgrade response from VPC_SERVICE. -/
inductive SockId where
  | pairClient : SockId
  | pairServer : SockId
  | backend : SockId
deriving DecidableEq, Repr

/-- An HTTP response as this layer produces or forwards it: status,
headers, body content (a streamed body is modelled by its content), and
an optionally attached WebSocket handle (Workers upgrade responses). -/
structure Response where
  status : Nat
  headers : List (String × String)
  body : String
  webSocket : Option SockId
deriving DecidableEq, Repr

/-- Environment bindings read by the worker (all optional strings). -/
structure Env where
  CF_ACCESS_TEAM_NAME : Option String
  CF_ACCESS_AUD : Option String
  CF_ACCESS_CLIENT_ID : Option String
  CF_ACCESS_CLIENT_SECRET : Option String
  OPENCLAW_GATEWAY_TOKEN : Option String
deriving DecidableEq, Repr

/-- The parts of an inbound request the worker inspects: method, path,
and the five headers read anywhere in the code. -/
structure Request where
  method : String
  path : String
  cfAccessJwtAssertion : Option String
  cfAccessClientId : Option String
  cfAccessClientSecret : Option String
  upgrade : Option String
  secWebSocketKey : Option String
deriving DecidableEq, Repr

/-- Outcome of the accessAuth middleware: either next() was invoked
(the request is authenticated and dispatch proceeds) or the middleware
answered directly with a status and body. -/
inductive AuthDecision where
  | next : AuthDecision
  | respond (status : Nat) (body : String) : AuthDecision
deriving DecidableEq, Repr

def configErrorBody : String := "\x7b\"error\":\"Server configuration error\"\x7d"

def invalidServiceTokenBody : String := "\x7b\"error\":\"Invalid service token\"\x7d"

def missingCredentialBody : String := "\x7b\"error\":\"Missing required CF Access JWT or service token\"\x7d"

def invalidTokenBody : String := "\x7b\"error\":\"Invalid or expired token\"\x7d"

def notFoundBody : String := "\x7b\"error\":\"Not found\"\x7d"

def internalErrorBody : String := "\x7b\"error\":\"Internal server error\"\x7d"

def chatFailBody : String := "\x7b\"error\":\"Failed to process chat request\"\x7d"

def toolsFailBody : String := "\x7b\"error\":\"Failed to invoke tool\"\x7d"

def wsConnectFailBody : String := "Failed to connect to OpenClaw WebSocket"

/-- The service-token validation condition of accessAuth (auth.ts lines
99-104): both configured values truthy and both presented headers equal
to them. -/
def serviceTokenMatch (env : Env) (req : Request) : Bool :=
  truthy env.CF_ACCESS_CLIENT_ID && truthy env.CF_ACCESS_CLIENT_SECRET
    && req.cfAccessClientId == env.CF_ACCESS_CLIENT_ID
    && req.cfAccessClientSecret == env.CF_ACCESS_CLIENT_SECRET

/-- The bearer-assertion fallback of accessAuth (auth.ts lines 114-145):
reject 403 when the cf-access-jwt-assertion header is falsy, otherwise
verify the JWT (jose jwtVerify against the team JWKS, issuer and
audience; success or failure supplied by the jwtOk oracle). -/
def bearerPath (env : Env) (req : Request) (jwtOk : Bool) : AuthDecision :=
  if !truthy req.cfAccessJwtAssertion then
    .respond 403 missingCredentialBody
  else if jwtOk then
    .next
  else
    .respond 403 invalidTokenBody

/-- The accessAuth middleware (auth.ts lines 80-147, service-token
variant): config checks, then the service-token branch when both
presented headers are truthy, else the bearer-assertion fallback. -/
def accessAuth (env : Env) (req : Request) (jwtOk : Bool) : AuthDecision :=
  if !truthy env.CF_ACCESS_TEAM_NAME then
    .respond 500 configErrorBody
  else if !truthy env.CF_ACCESS_AUD then
    .respond 500 configErrorBody
  else if truthy req.cfAccessClientId && truthy req.cfAccessClientSecret then
    if serviceTokenMatch env req then
      .next
    else
      .respond 403 invalidServiceTokenBody
  else
    bearerPath env req jwtOk

/-- The route handlers registered in src/index.ts, in registration
order, plus the app.all("*") not-found fallback. -/
inductive Routed where
  | chatCompletions : Routed
  | toolsInvoke : Routed
  | appAssets : Routed
  | faviconIco : Routed
  | faviconSvg : Routed
  | appCatchAll : Routed
  | assets : Routed
  | root : Routed
  | notFound : Routed
deriving DecidableEq, Repr

/-- Hono wildcard pattern matching for a pattern base/*: the path is the
base itself or extends it past a slash. -/
def wildMatch (base path : String) : Bool :=
  path == base || path.startsWith (base ++ "/")

/-- Route resolution of the app: first registered match wins. -/
def route (method path : String) : Routed :=
  if method == "POST" && path == "/v1/chat/completions" then .chatCompletions
  else if method == "POST" && path == "/tools/invoke" then .toolsInvoke
  else if method == "GET" && wildMatch "/app/assets" path then .appAssets
  else if method == "GET" && path == "/app/favicon.ico" then .faviconIco
  else if method == "GET" && path == "/app/favicon.svg" then .faviconSvg
  else if method == "GET" && wildMatch "/app" path then .appCatchAll
  else if method == "GET" && wildMatch "/assets" path then .assets
  else if method == "GET" && path == "/" then .root
  else .notFound

/-- External fetch and verification outcomes supplied to one request:
whether jwtVerify succeeds, and the result of each VPC_SERVICE.fetch the
handlers can issue (ok carries the backend Response, error carries the
thrown value rendered as a string). -/
structure World where
  jwtOk : Bool
  chatFetch : Except String Response
  toolsFetch : Except String Response
  assetFetch : Except String Response
  wsFetch : Except String Response

/-- The POST /v1/chat/completions handler (index.ts lines 11-36).
Returns the response together with a flag recording whether the
outbound VPC_SERVICE.fetch was issued. -/
def chatHandler (env : Env) (chatFetch : Except String Response) :
    Response × Bool :=
  if !truthy env.OPENCLAW_GATEWAY_TOKEN then
    (⟨500, [], configErrorBody, none⟩, false)
  else
    match chatFetch with
    | .ok r => (r, true)
    | .error _ => (⟨500, [], chatFailBody, none⟩, true)

/-- The POST /tools/invoke handler (index.ts lines 39-55): return the
backend response unmodified; a thrown fetch yields the fixed 500. -/
def toolsHandler (toolsFetch : Except String Response) : Response :=
  match toolsFetch with
  | .ok r => r
  | .error _ => ⟨500, [], toolsFailBody, none⟩

/-- The asset and SPA proxy handlers (index.ts lines 59-119): the
backend response is returned as-is; these handlers have no try/catch,
so a thrown fetch reaches app.onError, which answers 500 with the
generic internal-error body (index.ts lines 204-208). -/
def assetPassthrough (assetFetch : Except String Response) : Response :=
  match assetFetch with
  | .ok r => r
  | .error _ => ⟨500, [], internalErrorBody, none⟩

/-- Outcome of the WebSocket branch of the root handler: the response
sent to the caller and the list of sockets accept() was called on, in
call order. -/
structure WsOutcome where
  response : Response
  accepted : List SockId
deriving DecidableEq, Repr

/-- The WebSocket branch of app.get("/") (index.ts lines 125-194): fetch
the backend with upgrade headers; if the fetch throws, the catch answers
502 with the error interpolated into the body; if the upgrade response
carries no webSocket, answer 502 with a fixed body and accept nothing;
otherwise accept the pair server half and the backend socket, install
the bridge listeners, and answer 101 carrying the pair client half. -/
def handleRootWs (wsFetch : Except String Response) : WsOutcome :=
  match wsFetch with
  | .error e =>
      ⟨⟨502, [], "WebSocket proxy error: " ++ e, none⟩, []⟩
  | .ok resp =>
      match resp.webSocket with
      | none => ⟨⟨502, [], wsConnectFailBody, none⟩, []⟩
      | some s => ⟨⟨101, [], "", some SockId.pairClient⟩, [SockId.pairServer, s]⟩

/-- The redirect answered by app.get("/") for non-upgrade requests
(index.ts line 196): c.redirect("/app"). -/
def redirectToApp : Response := ⟨302, [("Location", "/app")], "", none⟩

/-- The full app.get("/") handler (index.ts lines 122-197): the
WebSocket branch is entered exactly when the Upgrade header strictly
equals "websocket"; the boolean records whether the bridge branch was
entered. -/
def rootGetHandler (req : Request) (wsFetch : Except String Response) :
    Response × Bool :=
  if req.upgrade == some "websocket" then
    ((handleRootWs wsFetch).response, true)
  else
    (redirectToApp, false)

/-- Dispatch of an authenticated request to its route handler. -/
def dispatch (env : Env) (req : Request) (w : World) : Response :=
  match route req.method req.path with
  | .chatCompletions => (chatHandler env w.chatFetch).1
  | .toolsInvoke => toolsHandler w.toolsFetch
  | .appAssets => assetPassthrough w.assetFetch
  | .faviconIco => assetPassthrough w.assetFetch
  | .faviconSvg => assetPassthrough w.assetFetch
  | .appCatchAll => assetPassthrough w.assetFetch
  | .assets => assetPassthrough w.assetFetch
  | .root => (rootGetHandler req w.wsFetch).1
  | .notFound => ⟨404, [], notFoundBody, none⟩

/-- The whole worker on one request: app.use("*", accessAuth) gates
every route (index.ts line 7); on next() the router dispatches. The
second component names the route handler that ran (none when the
middleware answered directly). -/
def appHandle (env : Env) (req : Request) (w : World) :
    Response × Option Routed :=
  match accessAuth env req w.jwtOk with
  | .respond s b => (⟨s, [], b, none⟩, none)
  | .next => (dispatch env req w, some (route req.method req.path))

/-- A socket side of the bridge session: client is the client-facing
half (the variable named server in index.ts, one half of the
WebSocketPair), backend is the socket attached to the upgrade response
from VPC_SERVICE (openclawWs). -/
inductive Side where
  | client : Side
  | backend : Side
deriving DecidableEq, Repr

def otherSide : Side → Side
  | .client => .backend
  | .backend => .client

/-- An event delivered to one socket of an established bridge. -/
inductive WsEvent where
  | message (data : String) : WsEvent
  | close (code : Nat) (reason : String) : WsEvent
  | error : WsEvent
deriving DecidableEq, Repr

/-- The action the bridge listener attempts on a socket (the attempt is
wrapped in try/catch in the source, so a failing send is only logged and
a failing close is swallowed). -/
inductive BridgeAction where
  | send (data : String) : BridgeAction
  | closeWith (code : Nat) (reason : String) : BridgeAction
deriving DecidableEq, Repr

/-- The reason string used when closing the peer after an error event
(index.ts lines 167 and 184). -/
def errorCloseReason : Side → String
  | .client => "Client error"
  | .backend => "Server error"

/-- The bridge event listeners installed by app.get("/") (index.ts lines
153-186): an event on one socket produces an attempted action on the
other socket. -/
def bridgeReaction (s : Side) : WsEvent → Side × BridgeAction
  | .message d => (otherSide s, .send d)
  | .close c r => (otherSide s, .closeWith c r)
  | .error => (otherSide s, .closeWith 1011 (errorCloseReason s))

/-! Concrete fixtures used by witnesses and counterexamples. -/

/-- A fully configured environment. -/
def envFull : Env :=
  ⟨some "team.cloudflareaccess.com", some "aud-tag", some "svc-id",
    some "svc-secret", some "gw-token"⟩

/-- Configured team and audience, service-token config unset. -/
def envNoSvc : Env :=
  ⟨some "team.cloudflareaccess.com", some "aud-tag", none, none, some "gw-token"⟩

/-- A request presenting the matching service token on POST /tools/invoke. -/
def reqSvc : Request :=
  ⟨"POST", "/tools/invoke", none, some "svc-id", some "svc-secret", none, none⟩

/-- A request presenting a service-token pair together with a bearer
assertion. -/
def reqSvcAndJwt : Request :=
  ⟨"GET", "/", some "jwt-token", some "other-id", some "other-secret", none, none⟩

/-- A request whose CF-Access-Client-Id header is the empty string and
which carries no bearer assertion. -/
def reqEmptyId : Request :=
  ⟨"GET", "/", none, some "", some "svc-secret", none, none⟩

theorem truthy_none : truthy none = false := rfl

theorem truthy_some_empty : truthy (some "") = false := rfl

/-- Claim C1: when both service-token headers are presented with
non-empty values (and the trust configuration passes the preceding
checks), accessAuth decides on the service-token branch alone: next()
exactly when the configured id and secret are both set and equal the
presented values, otherwise 403 with the invalid-service-token body; and
the decision is unchanged under any bearer-assertion header and any JWT
verification outcome, so the bearer path is never evaluated. -/
theorem accessAuth_serviceToken_precedence (env : Env) (req : Request)
    (jwtOk jwtOk' : Bool) (tok : Option String)
    (hteam : truthy env.CF_ACCESS_TEAM_NAME = true)
    (haud : truthy env.CF_ACCESS_AUD = true)
    (hid : truthy req.cfAccessClientId = true)
    (hsec : truthy req.cfAccessClientSecret = true) :
    accessAuth env req jwtOk =
      (if serviceTokenMatch env req then AuthDecision.next
       else AuthDecision.respond 403 invalidServiceTokenBody) ∧
    accessAuth env req jwtOk =
      accessAuth env { req with cfAccessJwtAssertion := tok } jwtOk' := by
  constructor
  · simp [accessAuth, hteam, haud, hid, hsec]
  · simp [accessAuth, serviceTokenMatch, hteam, haud, hid, hsec]

theorem accessAuth_serviceToken_precedence_witness :
    accessAuth envFull reqSvcAndJwt true =
      (if serviceTokenMatch envFull reqSvcAndJwt then AuthDecision.next
       else AuthDecision.respond 403 invalidServiceTokenBody) ∧
    accessAuth envFull reqSvcAndJwt true =
      accessAuth envFull { reqSvcAndJwt with cfAccessJwtAssertion := none } false :=
  accessAuth_serviceToken_precedence envFull reqSvcAndJwt true false none
    (by decide) (by decide) (by decide) (by decide)

/-- Claim C2 counterexample: with the service-token configuration unset,
a request presenting both service-token headers together with a bearer
assertion that would verify is rejected 403 on the service-token branch;
it does not fall through to the bearer-assertion check (which would have
answered next()). -/
theorem accessAuth_unsetSvcConfig_counterexample :
    accessAuth envNoSvc reqSvcAndJwt true =
      AuthDecision.respond 403 invalidServiceTokenBody ∧
    bearerPath envNoSvc reqSvcAndJwt true = AuthDecision.next ∧
    accessAuth envNoSvc reqSvcAndJwt true ≠
      bearerPath envNoSvc reqSvcAndJwt true := by
  refine ⟨by decide, by decide, by decide⟩

/-- Claim C2 (amended): with the service-token configuration unset, a
request presenting both service-token headers with non-empty values is
rejected 403 with the invalid-service-token body rather than falling
through; the bearer-assertion check is reached only by requests in which
at least one of the two service-token headers is falsy. -/
theorem accessAuth_unsetSvcConfig_rejects (env : Env) (req : Request)
    (jwtOk : Bool)
    (hteam : truthy env.CF_ACCESS_TEAM_NAME = true)
    (haud : truthy env.CF_ACCESS_AUD = true)
    (hcid : env.CF_ACCESS_CLIENT_ID = none)
    (hcsec : env.CF_ACCESS_CLIENT_SECRET = none) :
    (truthy req.cfAccessClientId = true →
      truthy req.cfAccessClientSecret = true →
      accessAuth env req jwtOk =
        AuthDecision.respond 403 invalidServiceTokenBody) ∧
    ((truthy req.cfAccessClientId && truthy req.cfAccessClientSecret) = false →
      accessAuth env req jwtOk = bearerPath env req jwtOk) := by
  constructor
  · intro hid hsec
    simp [accessAuth, serviceTokenMatch, hteam, haud, hid, hsec, hcid,
      truthy_none]
  · intro hnot
    simp [accessAuth, hteam, haud, hnot]

theorem accessAuth_unsetSvcConfig_rejects_witness :
    (truthy reqSvc.cfAccessClientId = true →
      truthy reqSvc.cfAccessClientSecret = true →
      accessAuth envNoSvc reqSvc true =
        AuthDecision.respond 403 invalidServiceTokenBody) ∧
    ((truthy reqSvc.cfAccessClientId && truthy reqSvc.cfAccessClientSecret) = false →
      accessAuth envNoSvc reqSvc true = bearerPath envNoSvc reqSvc true) :=
  accessAuth_unsetSvcConfig_rejects envNoSvc reqSvc true
    (by decide) (by decide) (by decide) (by decide)

/-- Claim C9: service-token header presence is decided by string
truthiness, so a request carrying either service-token header with an
empty-string value has no service-token credential: it falls through to
the bearer-assertion path, and when no bearer assertion is present it is
answered 403 with the missing-credential body, not with the
invalid-service-token body. -/
theorem accessAuth_emptyHeader_fallsThrough (env : Env) (req : Request)
    (jwtOk : Bool)
    (hteam : truthy env.CF_ACCESS_TEAM_NAME = true)
    (haud : truthy env.CF_ACCESS_AUD = true)
    (hempty : req.cfAccessClientId = some "" ∨
      req.cfAccessClientSecret = some "") :
    accessAuth env req jwtOk = bearerPath env req jwtOk ∧
    (req.cfAccessJwtAssertion = none →
      accessAuth env req jwtOk =
        AuthDecision.respond 403 missingCredentialBody) := by
  have hfall : accessAuth env req jwtOk = bearerPath env req jwtOk := by
    rcases hempty with h | h <;>
      simp [accessAuth, hteam, haud, h, truthy_some_empty]
  refine ⟨hfall, fun hjwt => ?_⟩
  rw [hfall]
  simp [bearerPath, hjwt, truthy_none]

theorem accessAuth_emptyHeader_fallsThrough_witness :
    accessAuth envFull reqEmptyId true = bearerPath envFull reqEmptyId true ∧
    (reqEmptyId.cfAccessJwtAssertion = none →
      accessAuth envFull reqEmptyId true =
        AuthDecision.respond 403 missingCredentialBody) :=
  accessAuth_emptyHeader_fallsThrough envFull reqEmptyId true
    (by decide) (by decide) (Or.inl (by decide))

/-- Claim C3 refutation: the catch branch of the root WebSocket handler
interpolates the caught error into the 502 response body, so the body is
not a fixed generic message independent of the error: two runs differing
only in the caught error produce different bodies, and the body contains
the error text verbatim. -/
theorem wsCatch_body_depends_on_error :
    (handleRootWs (Except.error "boom")).response.body =
      "WebSocket proxy error: boom" ∧
    (handleRootWs (Except.error "boom")).response.body ≠
      (handleRootWs (Except.error "oops")).response.body := by
  refine ⟨rfl, by decide⟩

/-- Claim C4: when the configured team domain is falsy, or the
configured audience is falsy, every request on every route is answered
500 with the configuration-error body regardless of credentials and of
every fetch outcome, and no route handler runs. -/
theorem appHandle_configFault (env : Env) (req : Request) (w : World)
    (h : truthy env.CF_ACCESS_TEAM_NAME = false ∨
      truthy env.CF_ACCESS_AUD = false) :
    appHandle env req w = (⟨500, [], configErrorBody, none⟩, none) := by
  rcases h with h | h
  · simp [appHandle, accessAuth, h]
  · cases hteam : truthy env.CF_ACCESS_TEAM_NAME <;>
      simp [appHandle, accessAuth, hteam, h]

theorem appHandle_configFault_witness :
    appHandle ⟨none, some "aud-tag", none, none, some "gw-token"⟩ reqSvc
        ⟨true, Except.error "down", Except.error "down", Except.error "down",
          Except.error "down"⟩ =
      (⟨500, [], configErrorBody, none⟩, none) :=
  appHandle_configFault ⟨none, some "aud-tag", none, none, some "gw-token"⟩
    reqSvc
    ⟨true, Except.error "down", Except.error "down", Except.error "down",
      Except.error "down"⟩
    (Or.inl (by decide))

/-- Claim C5: in an established bridge session, a close event with code
c and reason r on either socket makes the listener close the other
socket with the same code c and reason r, and an error event on either
socket makes the listener close the other socket with the fixed
abnormal-closure code 1011 and a short fixed reason string (at most 12
characters). -/
theorem bridgeReaction_close_error_propagation (s : Side) (c : Nat)
    (r : String) :
    bridgeReaction s (WsEvent.close c r) = (otherSide s, .closeWith c r) ∧
    bridgeReaction s WsEvent.error =
      (otherSide s, .closeWith 1011 (errorCloseReason s)) ∧
    (errorCloseReason s).length ≤ 12 := by
  cases s <;> exact ⟨rfl, rfl, by decide⟩

/-- Claim C6: when the backend upgrade response carries no attached
socket, the WebSocket branch of the root handler answers 502 with the
fixed connect-failure body and accept() is called on no socket (in
particular on neither half of the created WebSocketPair). -/
theorem handleRootWs_noSocket_rejects (resp : Response)
    (h : resp.webSocket = none) :
    handleRootWs (Except.ok resp) =
      ⟨⟨502, [], wsConnectFailBody, none⟩, []⟩ := by
  simp [handleRootWs, h]

theorem handleRootWs_noSocket_rejects_witness :
    handleRootWs (Except.ok ⟨200, [], "no upgrade", none⟩) =
      ⟨⟨502, [], wsConnectFailBody, none⟩, []⟩ :=
  handleRootWs_noSocket_rejects ⟨200, [], "no upgrade", none⟩ (by decide)

/-- Claim C7: for an authenticated POST /tools/invoke request whose
backend fetch succeeds, the response the app returns to the caller is
exactly the Response the backend returned: status, headers, body and
attached socket unchanged. -/
theorem toolsInvoke_passthrough (env : Env) (req : Request) (w : World)
    (r : Response)
    (hauth : accessAuth env req w.jwtOk = AuthDecision.next)
    (hmethod : req.method = "POST")
    (hpath : req.path = "/tools/invoke")
    (hfetch : w.toolsFetch = Except.ok r) :
    (appHandle env req w).1 = r := by
  have hroute : route req.method req.path = Routed.toolsInvoke := by
    rw [hmethod, hpath]; rfl
  simp [appHandle, hauth, dispatch, hroute, toolsHandler, hfetch]

theorem toolsInvoke_passthrough_witness :
    (appHandle envFull reqSvc
        ⟨false, Except.error "down", Except.ok ⟨207, [("X-K", "v")], "tool result", none⟩,
          Except.error "down", Except.error "down"⟩).1 =
      ⟨207, [("X-K", "v")], "tool result", none⟩ :=
  toolsInvoke_passthrough envFull reqSvc
    ⟨false, Except.error "down", Except.ok ⟨207, [("X-K", "v")], "tool result", none⟩,
      Except.error "down", Except.error "down"⟩
    ⟨207, [("X-K", "v")], "tool result", none⟩
    (by decide) rfl rfl rfl

/-- Claim C8: the POST /v1/chat/completions handler, when the upstream
bearer token OPENCLAW_GATEWAY_TOKEN is falsy, answers 500 with the
configuration-error body and issues no outbound fetch (the flag in the
second component is false), whatever the fetch oracle would have
returned. -/
theorem chatHandler_missingToken (env : Env)
    (chatFetch : Except String Response)
    (h : truthy env.OPENCLAW_GATEWAY_TOKEN = false) :
    chatHandler env chatFetch = (⟨500, [], configErrorBody, none⟩, false) := by
  simp [chatHandler, h]

theorem chatHandler_missingToken_witness :
    chatHandler ⟨some "team.cloudflareaccess.com", some "aud-tag", none, none, none⟩
        (Except.ok ⟨200, [], "chat", none⟩) =
      (⟨500, [], configErrorBody, none⟩, false) :=
  chatHandler_missingToken
    ⟨some "team.cloudflareaccess.com", some "aud-tag", none, none, none⟩
    (Except.ok ⟨200, [], "chat", none⟩) (by decide)

/-- Claim C10: the bridge trigger compares the Upgrade header to the
exact lowercase string websocket with case-sensitive equality: for any
other value of the header, including a differently cased value or an
absent header, the root GET handler returns the redirect to /app and the
bridge branch is never entered. -/
theorem rootGet_upgrade_caseSensitive (req : Request)
    (wsFetch : Except String Response)
    (h : req.upgrade ≠ some "websocket") :
    rootGetHandler req wsFetch = (redirectToApp, false) := by
  simp [rootGetHandler, h]

theorem rootGet_upgrade_caseSensitive_witness :
    rootGetHandler
        ⟨"GET", "/", none, none, none, some "WebSocket", none⟩
        (Except.ok ⟨101, [], "", some SockId.backend⟩) =
      (redirectToApp, false) :=
  rootGet_upgrade_caseSensitive
    ⟨"GET", "/", none, none, none, some "WebSocket", none⟩
    (Except.ok ⟨101, [], "", some SockId.backend⟩) (by decide)

end Vpc
